import Mathlib

/-!
Shallow embedding of the goride client library (package goride, the core
slice: Client transport, decodeJSON, the RWGPS session and its accessors
GetCurrentUser / Get / Auth / GetRides / GetRide).

Modelling choices, stated once:
* JSON bodies are modelled as already-parsed documents: a transport body is
  `Option Json`, where `none` stands for a byte string in which no leading
  JSON value can be scanned (a syntax error).  `encoding/json`'s
  `Decoder.Decode` first scans one whole JSON value and only then
  unmarshals, so on a syntax error the target is untouched; on an
  unmarshalling type error the first error is recorded and decoding
  continues, leaving the mismatching field at its previous value.  Both
  behaviours are reproduced here.
* JSON numbers are modelled as `Int`; `float32`/`float64`/`time.Duration`
  struct fields are modelled as `Int` as well (`GoFloat`).  No claim
  depends on floating-point semantics.
* `time.Time` fields are modelled as the raw string carried by the JSON
  document (`GoTime`); RFC3339 validation is not modelled, no claim
  depends on it.
* Go matches JSON object keys against field tags or names
  case-insensitively (`strings.EqualFold`); `eqFold` below reproduces the
  ASCII case of that match, which covers every key this API uses.
* `url.Values` is `map[string][]string`; it is modelled as an association
  list with unique keys, `Values.add` appending to the slice of an
  existing key exactly like `url.Values.Add`.  `Encode` sorts keys like
  `url.Values.Encode`; percent-escaping is not modelled (no claim
  depends on it).
* The HTTP stack is an oracle from the request URI to the outcome of
  `http.Get`: a transport failure without a response, a failure with a
  response attached, or a response.
* Executions additionally record a trace of the transport calls made
  (tagged by call site: the credentialed login request in
  `GetCurrentUser` versus every other request) and, for `RWGPS.Get`, the
  contents of the caller-supplied `url.Values` map after the call, since
  Go maps are references and `Get` mutates its argument in place.  This
  instrumentation only observes the execution; it changes no result.
-/

/-- A parsed JSON document. -/
inductive Json where
  | null : Json
  | bool (b : Bool) : Json
  | num (n : Int) : Json
  | str (s : String) : Json
  | arr (elems : List Json) : Json
  | obj (fields : List (String × Json)) : Json

/-- ASCII lower-casing of one character. -/
def lowerChar (c : Char) : Char :=
  if 65 ≤ c.toNat && c.toNat ≤ 90 then Char.ofNat (c.toNat + 32) else c

/-- ASCII case-insensitive character-list equality. -/
def eqFoldList : List Char → List Char → Bool
  | [], [] => true
  | a :: as, b :: bs => lowerChar a == lowerChar b && eqFoldList as bs
  | _, _ => false

/-- ASCII case of strings.EqualFold, the key match used by encoding/json. -/
def eqFold (a b : String) : Bool := eqFoldList a.data b.data

/-- An unmarshalling error, as recorded inside encoding/json. -/
abbrev DErr := String

/-- encoding/json keeps only the first unmarshalling error it meets. -/
def firstErr : Option DErr → Option DErr → Option DErr
  | some e, _ => some e
  | none, e => e

/-- Unmarshal a JSON value into a string field: strings store, null is a
no-op, anything else is a type error that keeps the old value. -/
def decStr (old : String) : Json → String × Option DErr
  | .str s => (s, none)
  | .null => (old, none)
  | _ => (old, some "cannot unmarshal value into string field")

/-- Unmarshal into an integer-like field (int, int64, time.Duration). -/
def decInt (old : Int) : Json → Int × Option DErr
  | .num n => (n, none)
  | .null => (old, none)
  | _ => (old, some "cannot unmarshal value into numeric field")

/-- Unmarshal into a bool field. -/
def decBool (old : Bool) : Json → Bool × Option DErr
  | .bool b => (b, none)
  | .null => (old, none)
  | _ => (old, some "cannot unmarshal value into bool field")

/-- Numeric fields modelled as integers (float32, float64,
time.Duration). -/
abbrev GoFloat := Int

/-- time.Time fields modelled as the raw text of the JSON string. -/
abbrev GoTime := String

/-- Unmarshal into a time.Time field: time.Time.UnmarshalJSON takes a JSON
string (null is a no-op, anything else errors). -/
def decTime (old : GoTime) : Json → GoTime × Option DErr
  | .str s => (s, none)
  | .null => (old, none)
  | _ => (old, some "cannot unmarshal value into time.Time field")

/-- Unmarshal a JSON array elementwise into a slice field.  Go resets the
slice and appends an element per array entry, saving the first element
error and continuing; null sets the slice to nil; any other value is a
type error keeping the old slice. -/
def decList (dec : Json → α × Option DErr) (old : List α) :
    Json → List α × Option DErr
  | .arr xs =>
    let res := xs.map dec
    (res.map (fun p => p.1), res.foldl (fun acc p => firstErr acc p.2) none)
  | .null => ([], none)
  | _ => (old, some "cannot unmarshal value into slice field")

/-- type Gear (source part_000 lines 35-38). -/
structure Gear where
  ID : Int := 0
  Name : String := ""
deriving DecidableEq

/-- type User (source part_000 lines 40-46). -/
structure User where
  ID : Int := 0
  Name : String := ""
  AuthToken : String := ""
  Gear : List Gear := []
  TotalTrips : Int := 0
deriving DecidableEq

/-- The anonymous Avg/Max/Min structs inside Metrics. -/
structure MinAvgMax where
  Avg : GoFloat := 0
  Max : GoFloat := 0
  Min : GoFloat := 0
deriving DecidableEq

/-- type Metrics (source part_000 lines 48-68). -/
structure Metrics where
  AscentTime : Int := 0
  DescentTime : Int := 0
  Calories : Int := 0
  Distance : GoFloat := 0
  Duration : Int := 0
  ElevationGain : GoFloat := 0
  ElevationLoss : GoFloat := 0
  Grade : MinAvgMax := {}
  MovingTime : Int := 0
  Speed : MinAvgMax := {}
  Stationary : Bool := false
deriving DecidableEq

/-- type LatLng (source part_000 lines 70-73). -/
structure LatLng where
  Lat : GoFloat := 0
  Lng : GoFloat := 0
deriving DecidableEq

/-- type Ride (source part_000 lines 129-137). -/
structure Ride where
  ID : Int := 0
  Started : GoTime := ""
  Metrics : Metrics := {}
  Distance : GoFloat := 0
  Description : String := ""
  Name : String := ""
  BoundingBox : List LatLng := []
deriving DecidableEq

/-- type RideSlim (source part_000 lines 75-127). -/
structure RideSlim where
  ID : Int := 0
  GroupMembershipID : Int := 0
  RouteID : Int := 0
  CreatedAt : GoTime := ""
  GearID : Int := 0
  DepartedAt : GoTime := ""
  Duration : Int := 0
  Distance : GoFloat := 0
  ElevationGain : GoFloat := 0
  ElevationLoss : GoFloat := 0
  Visibility : Int := 0
  Description : String := ""
  IsGps : Bool := false
  Name : String := ""
  MaxHr : GoFloat := 0
  MinHr : GoFloat := 0
  AvgHr : GoFloat := 0
  MaxCad : GoFloat := 0
  MinCad : GoFloat := 0
  AvgCad : GoFloat := 0
  AvgSpeed : GoFloat := 0
  MaxSpeed : GoFloat := 0
  MovingTime : Int := 0
  Processed : Bool := false
  AvgWatts : GoFloat := 0
  MaxWatts : GoFloat := 0
  MinWatts : GoFloat := 0
  IsStationary : Bool := false
  Calories : Int := 0
  UpdatedAt : GoTime := ""
  TimeZone : String := ""
  FirstLng : GoFloat := 0
  FirstLat : GoFloat := 0
  LastLng : GoFloat := 0
  LastLat : GoFloat := 0
  UserID : Int := 0
  DeletedAt : GoTime := ""
  SwLng : GoFloat := 0
  SwLat : GoFloat := 0
  NeLng : GoFloat := 0
  NeLat : GoFloat := 0
  TrackID : String := ""
  PostalCode : String := ""
  Locality : String := ""
  AdministrativeArea : String := ""
  CountryCode : String := ""
  SourceType : String := ""
  LikesCount : Int := 0
  HighlightedPhotoID : Int := 0
  HighlightedPhotoChecksum : String := ""
  UtcOffset : Int := 0
deriving DecidableEq

/-- Zero value of Gear. -/
def zeroGear : Gear := {}

/-- Zero value of User. -/
def zeroUser : User := {}

/-- Zero value of Ride. -/
def zeroRide : Ride := {}

/-- Zero value of RideSlim. -/
def zeroRideSlim : RideSlim := {}

/-- One object entry folded into a Gear (fields ID, Name, both untagged). -/
def unmGearStep (acc : Gear × Option DErr) (kv : String × Json) :
    Gear × Option DErr :=
  if eqFold kv.1 "ID" then
    let p := decInt acc.1.ID kv.2
    ({ acc.1 with ID := p.1 }, firstErr acc.2 p.2)
  else if eqFold kv.1 "Name" then
    let p := decStr acc.1.Name kv.2
    ({ acc.1 with Name := p.1 }, firstErr acc.2 p.2)
  else acc

/-- Unmarshal a JSON value into a Gear. -/
def unmGear (old : Gear) : Json → Gear × Option DErr
  | .obj fs => fs.foldl unmGearStep (old, none)
  | .null => (old, none)
  | _ => (old, some "cannot unmarshal value into Gear")

/-- Unmarshal one element of a []Gear slice (fresh zero element). -/
def decGearElem (j : Json) : Gear × Option DErr := unmGear zeroGear j

/-- One object entry folded into a User: fields ID, Name (untagged),
AuthToken (tag auth_token), Gear (untagged), TotalTrips (tag
trips_included_in_totals_count). -/
def unmUserStep (acc : User × Option DErr) (kv : String × Json) :
    User × Option DErr :=
  if eqFold kv.1 "ID" then
    let p := decInt acc.1.ID kv.2
    ({ acc.1 with ID := p.1 }, firstErr acc.2 p.2)
  else if eqFold kv.1 "Name" then
    let p := decStr acc.1.Name kv.2
    ({ acc.1 with Name := p.1 }, firstErr acc.2 p.2)
  else if eqFold kv.1 "auth_token" then
    let p := decStr acc.1.AuthToken kv.2
    ({ acc.1 with AuthToken := p.1 }, firstErr acc.2 p.2)
  else if eqFold kv.1 "Gear" then
    let p := decList decGearElem acc.1.Gear kv.2
    ({ acc.1 with Gear := p.1 }, firstErr acc.2 p.2)
  else if eqFold kv.1 "trips_included_in_totals_count" then
    let p := decInt acc.1.TotalTrips kv.2
    ({ acc.1 with TotalTrips := p.1 }, firstErr acc.2 p.2)
  else acc

/-- Unmarshal a JSON value into a User. -/
def unmUser (old : User) : Json → User × Option DErr
  | .obj fs => fs.foldl unmUserStep (old, none)
  | .null => (old, none)
  | _ => (old, some "cannot unmarshal value into User")

/-- One object entry folded into an Avg/Max/Min struct. -/
def unmMinAvgMaxStep (acc : MinAvgMax × Option DErr) (kv : String × Json) :
    MinAvgMax × Option DErr :=
  if eqFold kv.1 "Avg" then
    let p := decInt acc.1.Avg kv.2
    ({ acc.1 with Avg := p.1 }, firstErr acc.2 p.2)
  else if eqFold kv.1 "Max" then
    let p := decInt acc.1.Max kv.2
    ({ acc.1 with Max := p.1 }, firstErr acc.2 p.2)
  else if eqFold kv.1 "Min" then
    let p := decInt acc.1.Min kv.2
    ({ acc.1 with Min := p.1 }, firstErr acc.2 p.2)
  else acc

/-- Unmarshal a JSON value into an Avg/Max/Min struct. -/
def unmMinAvgMax (old : MinAvgMax) : Json → MinAvgMax × Option DErr
  | .obj fs => fs.foldl unmMinAvgMaxStep (old, none)
  | .null => (old, none)
  | _ => (old, some "cannot unmarshal value into MinAvgMax")

/-- One object entry folded into a Metrics: untagged fields except
ElevationGain (ele_gain) and ElevationLoss (ele_loss); Grade and Speed
are nested structs decoded in place. -/
def unmMetricsStep (acc : Metrics × Option DErr) (kv : String × Json) :
    Metrics × Option DErr :=
  if eqFold kv.1 "AscentTime" then
    let p := decInt acc.1.AscentTime kv.2
    ({ acc.1 with AscentTime := p.1 }, firstErr acc.2 p.2)
  else if eqFold kv.1 "DescentTime" then
    let p := decInt acc.1.DescentTime kv.2
    ({ acc.1 with DescentTime := p.1 }, firstErr acc.2 p.2)
  else if eqFold kv.1 "Calories" then
    let p := decInt acc.1.Calories kv.2
    ({ acc.1 with Calories := p.1 }, firstErr acc.2 p.2)
  else if eqFold kv.1 "Distance" then
    let p := decInt acc.1.Distance kv.2
    ({ acc.1 with Distance := p.1 }, firstErr acc.2 p.2)
  else if eqFold kv.1 "Duration" then
    let p := decInt acc.1.Duration kv.2
    ({ acc.1 with Duration := p.1 }, firstErr acc.2 p.2)
  else if eqFold kv.1 "ele_gain" then
    let p := decInt acc.1.ElevationGain kv.2
    ({ acc.1 with ElevationGain := p.1 }, firstErr acc.2 p.2)
  else if eqFold kv.1 "ele_loss" then
    let p := decInt acc.1.ElevationLoss kv.2
    ({ acc.1 with ElevationLoss := p.1 }, firstErr acc.2 p.2)
  else if eqFold kv.1 "Grade" then
    let p := unmMinAvgMax acc.1.Grade kv.2
    ({ acc.1 with Grade := p.1 }, firstErr acc.2 p.2)
  else if eqFold kv.1 "MovingTime" then
    let p := decInt acc.1.MovingTime kv.2
    ({ acc.1 with MovingTime := p.1 }, firstErr acc.2 p.2)
  else if eqFold kv.1 "Speed" then
    let p := unmMinAvgMax acc.1.Speed kv.2
    ({ acc.1 with Speed := p.1 }, firstErr acc.2 p.2)
  else if eqFold kv.1 "Stationary" then
    let p := decBool acc.1.Stationary kv.2
    ({ acc.1 with Stationary := p.1 }, firstErr acc.2 p.2)
  else acc

/-- Unmarshal a JSON value into a Metrics. -/
def unmMetrics (old : Metrics) : Json → Metrics × Option DErr
  | .obj fs => fs.foldl unmMetricsStep (old, none)
  | .null => (old, none)
  | _ => (old, some "cannot unmarshal value into Metrics")

/-- One object entry folded into a LatLng. -/
def unmLatLngStep (acc : LatLng × Option DErr) (kv : String × Json) :
    LatLng × Option DErr :=
  if eqFold kv.1 "Lat" then
    let p := decInt acc.1.Lat kv.2
    ({ acc.1 with Lat := p.1 }, firstErr acc.2 p.2)
  else if eqFold kv.1 "Lng" then
    let p := decInt acc.1.Lng kv.2
    ({ acc.1 with Lng := p.1 }, firstErr acc.2 p.2)
  else acc

/-- Unmarshal a JSON value into a LatLng. -/
def unmLatLng (old : LatLng) : Json → LatLng × Option DErr
  | .obj fs => fs.foldl unmLatLngStep (old, none)
  | .null => (old, none)
  | _ => (old, some "cannot unmarshal value into LatLng")

/-- Unmarshal one element of a []LatLng slice. -/
def decLatLngElem (j : Json) : LatLng × Option DErr := unmLatLng {} j

/-- One object entry folded into a Ride: ID, Metrics, Distance,
Description, Name untagged; Started tagged departed_at; BoundingBox
tagged bounding_box. -/
def unmRideStep (acc : Ride × Option DErr) (kv : String × Json) :
    Ride × Option DErr :=
  if eqFold kv.1 "ID" then
    let p := decInt acc.1.ID kv.2
    ({ acc.1 with ID := p.1 }, firstErr acc.2 p.2)
  else if eqFold kv.1 "departed_at" then
    let p := decTime acc.1.Started kv.2
    ({ acc.1 with Started := p.1 }, firstErr acc.2 p.2)
  else if eqFold kv.1 "Metrics" then
    let p := unmMetrics acc.1.Metrics kv.2
    ({ acc.1 with Metrics := p.1 }, firstErr acc.2 p.2)
  else if eqFold kv.1 "Distance" then
    let p := decInt acc.1.Distance kv.2
    ({ acc.1 with Distance := p.1 }, firstErr acc.2 p.2)
  else if eqFold kv.1 "Description" then
    let p := decStr acc.1.Description kv.2
    ({ acc.1 with Description := p.1 }, firstErr acc.2 p.2)
  else if eqFold kv.1 "Name" then
    let p := decStr acc.1.Name kv.2
    ({ acc.1 with Name := p.1 }, firstErr acc.2 p.2)
  else if eqFold kv.1 "bounding_box" then
    let p := decList decLatLngElem acc.1.BoundingBox kv.2
    ({ acc.1 with BoundingBox := p.1 }, firstErr acc.2 p.2)
  else acc

/-- Unmarshal a JSON value into a Ride. -/
def unmRide (old : Ride) : Json → Ride × Option DErr
  | .obj fs => fs.foldl unmRideStep (old, none)
  | .null => (old, none)
  | _ => (old, some "cannot unmarshal value into Ride")

/-- One object entry folded into a RideSlim; every field carries an
explicit lowercase json tag in the source. -/
def unmRideSlimStep (acc : RideSlim × Option DErr) (kv : String × Json) :
    RideSlim × Option DErr :=
  if eqFold kv.1 "id" then
    let p := decInt acc.1.ID kv.2
    ({ acc.1 with ID := p.1 }, firstErr acc.2 p.2)
  else if eqFold kv.1 "group_membership_id" then
    let p := decInt acc.1.GroupMembershipID kv.2
    ({ acc.1 with GroupMembershipID := p.1 }, firstErr acc.2 p.2)
  else if eqFold kv.1 "route_id" then
    let p := decInt acc.1.RouteID kv.2
    ({ acc.1 with RouteID := p.1 }, firstErr acc.2 p.2)
  else if eqFold kv.1 "created_at" then
    let p := decTime acc.1.CreatedAt kv.2
    ({ acc.1 with CreatedAt := p.1 }, firstErr acc.2 p.2)
  else if eqFold kv.1 "gear_id" then
    let p := decInt acc.1.GearID kv.2
    ({ acc.1 with GearID := p.1 }, firstErr acc.2 p.2)
  else if eqFold kv.1 "departed_at" then
    let p := decTime acc.1.DepartedAt kv.2
    ({ acc.1 with DepartedAt := p.1 }, firstErr acc.2 p.2)
  else if eqFold kv.1 "duration" then
    let p := decInt acc.1.Duration kv.2
    ({ acc.1 with Duration := p.1 }, firstErr acc.2 p.2)
  else if eqFold kv.1 "distance" then
    let p := decInt acc.1.Distance kv.2
    ({ acc.1 with Distance := p.1 }, firstErr acc.2 p.2)
  else if eqFold kv.1 "elevation_gain" then
    let p := decInt acc.1.ElevationGain kv.2
    ({ acc.1 with ElevationGain := p.1 }, firstErr acc.2 p.2)
  else if eqFold kv.1 "elevation_loss" then
    let p := decInt acc.1.ElevationLoss kv.2
    ({ acc.1 with ElevationLoss := p.1 }, firstErr acc.2 p.2)
  else if eqFold kv.1 "visibility" then
    let p := decInt acc.1.Visibility kv.2
    ({ acc.1 with Visibility := p.1 }, firstErr acc.2 p.2)
  else if eqFold kv.1 "description" then
    let p := decStr acc.1.Description kv.2
    ({ acc.1 with Description := p.1 }, firstErr acc.2 p.2)
  else if eqFold kv.1 "is_gps" then
    let p := decBool acc.1.IsGps kv.2
    ({ acc.1 with IsGps := p.1 }, firstErr acc.2 p.2)
  else if eqFold kv.1 "name" then
    let p := decStr acc.1.Name kv.2
    ({ acc.1 with Name := p.1 }, firstErr acc.2 p.2)
  else if eqFold kv.1 "max_hr" then
    let p := decInt acc.1.MaxHr kv.2
    ({ acc.1 with MaxHr := p.1 }, firstErr acc.2 p.2)
  else if eqFold kv.1 "min_hr" then
    let p := decInt acc.1.MinHr kv.2
    ({ acc.1 with MinHr := p.1 }, firstErr acc.2 p.2)
  else if eqFold kv.1 "avg_hr" then
    let p := decInt acc.1.AvgHr kv.2
    ({ acc.1 with AvgHr := p.1 }, firstErr acc.2 p.2)
  else if eqFold kv.1 "max_cad" then
    let p := decInt acc.1.MaxCad kv.2
    ({ acc.1 with MaxCad := p.1 }, firstErr acc.2 p.2)
  else if eqFold kv.1 "min_cad" then
    let p := decInt acc.1.MinCad kv.2
    ({ acc.1 with MinCad := p.1 }, firstErr acc.2 p.2)
  else if eqFold kv.1 "avg_cad" then
    let p := decInt acc.1.AvgCad kv.2
    ({ acc.1 with AvgCad := p.1 }, firstErr acc.2 p.2)
  else if eqFold kv.1 "avg_speed" then
    let p := decInt acc.1.AvgSpeed kv.2
    ({ acc.1 with AvgSpeed := p.1 }, firstErr acc.2 p.2)
  else if eqFold kv.1 "max_speed" then
    let p := decInt acc.1.MaxSpeed kv.2
    ({ acc.1 with MaxSpeed := p.1 }, firstErr acc.2 p.2)
  else if eqFold kv.1 "moving_time" then
    let p := decInt acc.1.MovingTime kv.2
    ({ acc.1 with MovingTime := p.1 }, firstErr acc.2 p.2)
  else if eqFold kv.1 "processed" then
    let p := decBool acc.1.Processed kv.2
    ({ acc.1 with Processed := p.1 }, firstErr acc.2 p.2)
  else if eqFold kv.1 "avg_watts" then
    let p := decInt acc.1.AvgWatts kv.2
    ({ acc.1 with AvgWatts := p.1 }, firstErr acc.2 p.2)
  else if eqFold kv.1 "max_watts" then
    let p := decInt acc.1.MaxWatts kv.2
    ({ acc.1 with MaxWatts := p.1 }, firstErr acc.2 p.2)
  else if eqFold kv.1 "min_watts" then
    let p := decInt acc.1.MinWatts kv.2
    ({ acc.1 with MinWatts := p.1 }, firstErr acc.2 p.2)
  else if eqFold kv.1 "is_stationary" then
    let p := decBool acc.1.IsStationary kv.2
    ({ acc.1 with IsStationary := p.1 }, firstErr acc.2 p.2)
  else if eqFold kv.1 "calories" then
    let p := decInt acc.1.Calories kv.2
    ({ acc.1 with Calories := p.1 }, firstErr acc.2 p.2)
  else if eqFold kv.1 "updated_at" then
    let p := decTime acc.1.UpdatedAt kv.2
    ({ acc.1 with UpdatedAt := p.1 }, firstErr acc.2 p.2)
  else if eqFold kv.1 "time_zone" then
    let p := decStr acc.1.TimeZone kv.2
    ({ acc.1 with TimeZone := p.1 }, firstErr acc.2 p.2)
  else if eqFold kv.1 "first_lng" then
    let p := decInt acc.1.FirstLng kv.2
    ({ acc.1 with FirstLng := p.1 }, firstErr acc.2 p.2)
  else if eqFold kv.1 "first_lat" then
    let p := decInt acc.1.FirstLat kv.2
    ({ acc.1 with FirstLat := p.1 }, firstErr acc.2 p.2)
  else if eqFold kv.1 "last_lng" then
    let p := decInt acc.1.LastLng kv.2
    ({ acc.1 with LastLng := p.1 }, firstErr acc.2 p.2)
  else if eqFold kv.1 "last_lat" then
    let p := decInt acc.1.LastLat kv.2
    ({ acc.1 with LastLat := p.1 }, firstErr acc.2 p.2)
  else if eqFold kv.1 "user_id" then
    let p := decInt acc.1.UserID kv.2
    ({ acc.1 with UserID := p.1 }, firstErr acc.2 p.2)
  else if eqFold kv.1 "deleted_at" then
    let p := decTime acc.1.DeletedAt kv.2
    ({ acc.1 with DeletedAt := p.1 }, firstErr acc.2 p.2)
  else if eqFold kv.1 "sw_lng" then
    let p := decInt acc.1.SwLng kv.2
    ({ acc.1 with SwLng := p.1 }, firstErr acc.2 p.2)
  else if eqFold kv.1 "sw_lat" then
    let p := decInt acc.1.SwLat kv.2
    ({ acc.1 with SwLat := p.1 }, firstErr acc.2 p.2)
  else if eqFold kv.1 "ne_lng" then
    let p := decInt acc.1.NeLng kv.2
    ({ acc.1 with NeLng := p.1 }, firstErr acc.2 p.2)
  else if eqFold kv.1 "ne_lat" then
    let p := decInt acc.1.NeLat kv.2
    ({ acc.1 with NeLat := p.1 }, firstErr acc.2 p.2)
  else if eqFold kv.1 "track_id" then
    let p := decStr acc.1.TrackID kv.2
    ({ acc.1 with TrackID := p.1 }, firstErr acc.2 p.2)
  else if eqFold kv.1 "postal_code" then
    let p := decStr acc.1.PostalCode kv.2
    ({ acc.1 with PostalCode := p.1 }, firstErr acc.2 p.2)
  else if eqFold kv.1 "locality" then
    let p := decStr acc.1.Locality kv.2
    ({ acc.1 with Locality := p.1 }, firstErr acc.2 p.2)
  else if eqFold kv.1 "administrative_area" then
    let p := decStr acc.1.AdministrativeArea kv.2
    ({ acc.1 with AdministrativeArea := p.1 }, firstErr acc.2 p.2)
  else if eqFold kv.1 "country_code" then
    let p := decStr acc.1.CountryCode kv.2
    ({ acc.1 with CountryCode := p.1 }, firstErr acc.2 p.2)
  else if eqFold kv.1 "source_type" then
    let p := decStr acc.1.SourceType kv.2
    ({ acc.1 with SourceType := p.1 }, firstErr acc.2 p.2)
  else if eqFold kv.1 "likes_count" then
    let p := decInt acc.1.LikesCount kv.2
    ({ acc.1 with LikesCount := p.1 }, firstErr acc.2 p.2)
  else if eqFold kv.1 "highlighted_photo_id" then
    let p := decInt acc.1.HighlightedPhotoID kv.2
    ({ acc.1 with HighlightedPhotoID := p.1 }, firstErr acc.2 p.2)
  else if eqFold kv.1 "highlighted_photo_checksum" then
    let p := decStr acc.1.HighlightedPhotoChecksum kv.2
    ({ acc.1 with HighlightedPhotoChecksum := p.1 }, firstErr acc.2 p.2)
  else if eqFold kv.1 "utc_offset" then
    let p := decInt acc.1.UtcOffset kv.2
    ({ acc.1 with UtcOffset := p.1 }, firstErr acc.2 p.2)
  else acc

/-- Unmarshal a JSON value into a RideSlim. -/
def unmRideSlim (old : RideSlim) : Json → RideSlim × Option DErr
  | .obj fs => fs.foldl unmRideSlimStep (old, none)
  | .null => (old, none)
  | _ => (old, some "cannot unmarshal value into RideSlim")

/-- Unmarshal one element of a []*RideSlim slice: JSON null is a nil
pointer; otherwise a fresh RideSlim is allocated and decoded into. -/
def decRideSlimElem (j : Json) : Option RideSlim × Option DErr :=
  match j with
  | .null => (none, none)
  | _ =>
    let p := unmRideSlim zeroRideSlim j
    (some p.1, p.2)

/-- The anonymous response envelope of GetCurrentUser
(struct lbrace User User rbrace, source line 201). -/
structure UserEnv where
  User : User := {}
deriving DecidableEq

/-- One object entry folded into a UserEnv (field User, untagged). -/
def unmUserEnvStep (acc : UserEnv × Option DErr) (kv : String × Json) :
    UserEnv × Option DErr :=
  if eqFold kv.1 "User" then
    let p := unmUser acc.1.User kv.2
    ({ acc.1 with User := p.1 }, firstErr acc.2 p.2)
  else acc

/-- Unmarshal a JSON value into a UserEnv. -/
def unmUserEnv (old : UserEnv) : Json → UserEnv × Option DErr
  | .obj fs => fs.foldl unmUserEnvStep (old, none)
  | .null => (old, none)
  | _ => (old, some "cannot unmarshal value into UserEnv")

/-- The anonymous response envelope of GetRides (source lines 244-247):
Count tagged results_count, Rides tagged results, element type *RideSlim
(hence Option per element for JSON null). -/
structure RidesEnv where
  Count : Int := 0
  Rides : List (Option RideSlim) := []
deriving DecidableEq

/-- One object entry folded into a RidesEnv. -/
def unmRidesEnvStep (acc : RidesEnv × Option DErr) (kv : String × Json) :
    RidesEnv × Option DErr :=
  if eqFold kv.1 "results_count" then
    let p := decInt acc.1.Count kv.2
    ({ acc.1 with Count := p.1 }, firstErr acc.2 p.2)
  else if eqFold kv.1 "results" then
    let p := decList decRideSlimElem acc.1.Rides kv.2
    ({ acc.1 with Rides := p.1 }, firstErr acc.2 p.2)
  else acc

/-- Unmarshal a JSON value into a RidesEnv. -/
def unmRidesEnv (old : RidesEnv) : Json → RidesEnv × Option DErr
  | .obj fs => fs.foldl unmRidesEnvStep (old, none)
  | .null => (old, none)
  | _ => (old, some "cannot unmarshal value into RidesEnv")

/-- The anonymous response envelope of GetRide (source lines 260-263):
fields Type and Trip, both untagged. -/
structure RideEnv where
  «Type» : String := ""
  Trip : Ride := {}
deriving DecidableEq

/-- One object entry folded into a RideEnv. -/
def unmRideEnvStep (acc : RideEnv × Option DErr) (kv : String × Json) :
    RideEnv × Option DErr :=
  if eqFold kv.1 "Type" then
    let p := decStr acc.1.«Type» kv.2
    ({ acc.1 with «Type» := p.1 }, firstErr acc.2 p.2)
  else if eqFold kv.1 "Trip" then
    let p := unmRide acc.1.Trip kv.2
    ({ acc.1 with Trip := p.1 }, firstErr acc.2 p.2)
  else acc

/-- Unmarshal a JSON value into a RideEnv. -/
def unmRideEnv (old : RideEnv) : Json → RideEnv × Option DErr
  | .obj fs => fs.foldl unmRideEnvStep (old, none)
  | .null => (old, none)
  | _ => (old, some "cannot unmarshal value into RideEnv")

/-- A transport body: the parse of the returned bytes, or none when no
leading JSON value can be scanned from them. -/
abbrev Body := Option Json

/-- The error taxonomy, mirroring each fmt.Errorf site of the source:
transport failures from Client.Get (with the received status text when a
response was present), decode failures from decodeJSON (carrying the
offending payload), the discriminator validation failure of GetRide, and
context wrapping.  outOfFuel is an artifact of the bounded interpreter
below; it is never produced from the entry points. -/
inductive Err where
  | transport (base : String) (status : Option String) : Err
  | decode (data : Body) : Err
  | validation (t : String) : Err
  | wrap (ctx : String) (e : Err) : Err
  | outOfFuel : Err

/-- func decodeJSON (source lines 162-170): scan then unmarshal.  A body
with no scannable JSON value errors leaving the target at its zero
value; an unmarshalling error is wrapped together with the payload, and
the partially populated target is still handed back (the source decodes
into obj in place and returns only the error). -/
def decodeJSON (unm : Json → α × Option DErr) (zero : α) :
    Body → α × Option Err
  | none => (zero, some (Err.decode none))
  | some j =>
    let p := unm j
    (p.1, p.2.map (fun _ => Err.decode (some j)))

/-- url.Values: map[string][]string, modelled as an association list with
unique keys. -/
abbrev Values := List (String × List String)

/-- Lookup of the value slice for a key (empty slice when absent). -/
def Values.get : Values → String → List String
  | [], _ => []
  | p :: t, k => if p.1 = k then p.2 else Values.get t k

/-- url.Values.Add: appends value to the slice of key, creating the entry
when absent. -/
def Values.add : Values → String → String → Values
  | [], k, v => [(k, [v])]
  | p :: t, k, v =>
    if p.1 = k then (p.1, p.2 ++ [v]) :: t else p :: Values.add t k v

/-- Byte-wise lexicographic order on character lists; for the ASCII keys
this API uses it coincides with the byte order url.Values.Encode sorts
by. -/
def lexLt : List Char → List Char → Bool
  | [], [] => false
  | [], _ :: _ => true
  | _ :: _, [] => false
  | a :: as, b :: bs => if a = b then lexLt as bs else decide (a.toNat < b.toNat)

/-- String comparison used to sort keys in Values.encode. -/
def strLt (a b : String) : Bool := lexLt a.data b.data

/-- Insertion into a key-sorted association list. -/
def insertSorted (p : String × List String) :
    Values → Values
  | [] => [p]
  | q :: t => if strLt p.1 q.1 then p :: q :: t else q :: insertSorted p t

/-- Sort Values entries by key, as url.Values.Encode does. -/
def sortByKey : Values → Values
  | [] => []
  | p :: t => insertSorted p (sortByKey t)

/-- url.Values.Encode: keys in sorted order, one k=v pair per value in
slice order, joined by ampersands (percent-escaping not modelled). -/
def Values.encode (vs : Values) : String :=
  String.intercalate "&"
    ((sortByKey vs).map (fun p => p.2.map (fun v => p.1 ++ "=" ++ v))).flatten

/-- type Config (source lines 28-33). -/
structure Config where
  Email : String := ""
  Password : String := ""
  KeyName : String := ""
  CfgPath : String := ""
deriving DecidableEq

/-- type Client (source lines 18-20). -/
structure Client where
  server : String := ""
deriving DecidableEq

/-- An HTTP response as Client.Get sees it: the numeric status code, the
status text (resp.Status, like "404 Not Found"), and the parsed body. -/
structure Resp where
  statusCode : Int := 200
  status : String := ""
  body : Body := none

/-- The outcome of http.Get(uri): an error with no response, an error with
a response attached (redirect-failure corner of net/http), or a
response. -/
inductive HttpResult where
  | fail : HttpResult
  | failWithResp (resp : Resp) : HttpResult
  | ok (resp : Resp) : HttpResult

/-- The network, as an oracle from the full request URI to the outcome of
http.Get. -/
abbrev Oracle := String → HttpResult

/-- The URI built by Client.Get (source lines 278-286). -/
def Client.uri (c : Client) (base : String) (args : Values) : String :=
  (if c.server ≠ "" then c.server ++ base else base) ++
    (if args.length > 0 then "?" ++ Values.encode args else "")

/-- func (c *Client) Get (source lines 277-299).  The source tests
err != nil or StatusCode != 200 and reports the status text whenever a
response is present; on success the body is returned (the ReadAll error
is discarded by the source, so a 200 response never errors). -/
def Client.Get (c : Client) (o : Oracle) (base : String) (args : Values) :
    Except Err Body :=
  match o (Client.uri c base args) with
  | .fail => .error (.transport base none)
  | .failWithResp resp => .error (.transport base (some resp.status))
  | .ok resp =>
    if resp.statusCode ≠ 200 then .error (.transport base (some resp.status))
    else .ok resp.body

/-- type RWGPS (source lines 22-26): the session. -/
structure RWGPS where
  authUser : Option User := none
  config : Config := {}
  client : Client := {}

/-- The re-login guard of the source (lines 185 and 208): the stored
identity is absent or its token is empty. -/
def RWGPS.isUnauth (r : RWGPS) : Bool :=
  match r.authUser with
  | none => true
  | some u => u.AuthToken = ""

/-- The credentialed query parameters of the login request (source lines
187-192; a url.Values literal, written here in source order). -/
def credArgs (cfg : Config) : Values :=
  [("email", [cfg.Email]), ("password", [cfg.Password]),
   ("apikey", [cfg.KeyName]), ("version", ["2"])]

/-- r.authUser.AuthToken as read on source line 219.  After a successful
Auth the identity is present; on the unreachable nil identity Go would
panic, modelled as the empty token. -/
def tokenOf (r : RWGPS) : String :=
  (r.authUser.map User.AuthToken).getD ""

/-- The parameter merge of RWGPS.Get (source lines 214-219): a nil map is
replaced by a fresh empty one, then apikey, version and auth_token are
appended in that order. -/
def mergedArgs (r : RWGPS) (args : Option Values) : Values :=
  Values.add (Values.add (Values.add (args.getD []) "apikey" r.config.KeyName)
    "version" "2") "auth_token" (tokenOf r)

/-- A recorded transport call, tagged by call site: the credentialed login
request of GetCurrentUser versus every other request. -/
inductive Ev where
  | login (args : Values) : Ev
  | fetch (base : String) (args : Values) : Ev
deriving DecidableEq

/-- Whether an event is the credentialed login request. -/
def isLoginEv : Ev → Bool
  | .login _ => true
  | .fetch _ _ => false

/-- Whether an event is a non-login transport request. -/
def isFetchEv : Ev → Bool
  | .fetch _ _ => true
  | .login _ => false

/-- The query parameters a recorded transport call carried. -/
def evArgs : Ev → Values
  | .login a => a
  | .fetch _ a => a

/-- The tail of GetCurrentUser shared by both branches (source lines
197-204): wrap a transport error, otherwise decode the user envelope;
the (possibly partially populated) decoded user is returned together
with any decode error, exactly as the source returns
(with resStruct.User, err). -/
def gcuFinish (res : Except Err Body) : Option User × Option Err :=
  match res with
  | .error e => (none, some (.wrap "error getting current user" e))
  | .ok b =>
    let p := decodeJSON (unmUserEnv {}) {} b
    (some p.1.User, p.2)

/-- The tail of Auth (source lines 225-231): wrap a GetCurrentUser error,
otherwise store the identity. -/
def authFinish (p : Option User × Option Err) (r : RWGPS) :
    Option Err × RWGPS :=
  match p.2 with
  | some e => (some (.wrap "cant log in" e), r)
  | none => (none, { r with authUser := p.1 })

/-- The three mutually recursive session operations of the source. -/
inductive Callee where
  | getCurrentUser : Callee
  | auth : Callee
  | get (method : String) (args : Option Values) : Callee

/-- The result of one session operation.  user carries GetCurrentUser's
(*User, error) pair; body carries Get's (string, error) result together
with the contents of the caller's url.Values map after the call (Go maps
are references and Get appends into its argument); authR carries Auth's
error. -/
inductive Outcome where
  | user (u : Option User) (e : Option Err) : Outcome
  | body (res : Except Err Body) (caller : Option Values) : Outcome
  | authR (e : Option Err) : Outcome
  | fuelOut : Outcome

/-- The session interpreter: a direct transcription of GetCurrentUser
(source lines 182-205), Get (207-221) and Auth (223-232), with a fuel
bound to replace the mutual recursion of the source.  The recursion
depth of the source is at most three calls (Get to Auth to
GetCurrentUser, or GetCurrentUser to Get), so fuel 4 is never exhausted
from the entry points below. -/
def run : Nat → Oracle → RWGPS → Callee → Outcome × RWGPS × List Ev
  | 0, _, r, _ => (.fuelOut, r, [])
  | Nat.succ n, o, r, c =>
    match c with
    | .getCurrentUser =>
      if r.isUnauth then
        let args := credArgs r.config
        let res := Client.Get r.client o "/users/current.json" args
        let p := gcuFinish res
        (.user p.1 p.2, r, [.login args])
      else
        match run n o r (.get "/users/current.json" none) with
        | (.body res _, r1, tr) =>
          let p := gcuFinish res
          (.user p.1 p.2, r1, tr)
        | (_, r1, tr) => (.fuelOut, r1, tr)
    | .auth =>
      match run n o r .getCurrentUser with
      | (.user u e, r1, tr) =>
        let q := authFinish (u, e) r1
        (.authR q.1, q.2, tr)
      | (_, r1, tr) => (.fuelOut, r1, tr)
    | .get method args =>
      let step : Except Err Unit × RWGPS × List Ev :=
        if r.isUnauth then
          match run n o r .auth with
          | (.authR (some e), r1, tr) => (.error (.wrap "cant auth" e), r1, tr)
          | (.authR none, r1, tr) => (.ok (), r1, tr)
          | (_, r1, tr) => (.error .outOfFuel, r1, tr)
        else (.ok (), r, [])
      match step with
      | (.error e, r1, tr) => (.body (.error e) args, r1, tr)
      | (.ok _, r1, tr) =>
        let m := mergedArgs r1 args
        (.body (Client.Get r1.client o method m) (args.map (fun _ => m)),
         r1, tr ++ [.fetch method m])

/-- func (r *RWGPS) GetCurrentUser (source lines 182-205), as an entry
point. -/
def RWGPS.GetCurrentUser (o : Oracle) (r : RWGPS) :
    (Option User × Option Err) × RWGPS × List Ev :=
  match run 4 o r .getCurrentUser with
  | (.user u e, r1, tr) => ((u, e), r1, tr)
  | (_, r1, tr) => ((none, some .outOfFuel), r1, tr)

/-- func (r *RWGPS) Auth (source lines 223-232), as an entry point. -/
def RWGPS.Auth (o : Oracle) (r : RWGPS) : Option Err × RWGPS × List Ev :=
  match run 4 o r .auth with
  | (.authR e, r1, tr) => (e, r1, tr)
  | (_, r1, tr) => (some .outOfFuel, r1, tr)

/-- func (r *RWGPS) Get (source lines 207-221), as an entry point.  The
first component pairs the returned (string, error) with the contents of
the caller's args map after the call. -/
def RWGPS.Get (o : Oracle) (r : RWGPS) (method : String)
    (args : Option Values) :
    (Except Err Body × Option Values) × RWGPS × List Ev :=
  match run 4 o r (.get method args) with
  | (.body res caller, r1, tr) => ((res, caller), r1, tr)
  | (_, r1, tr) => ((.error .outOfFuel, args), r1, tr)

/-- func (r *RWGPS) GetRides (source lines 234-252). -/
def RWGPS.GetRides (o : Oracle) (r : RWGPS) (user offset limit : Int) :
    (List (Option RideSlim) × Int × Option Err) × RWGPS × List Ev :=
  match RWGPS.Get o r ("/users/" ++ toString user ++ "/trips.json")
      (some [("offset", [toString offset]), ("limit", [toString limit])]) with
  | ((.error e, _), r1, tr) =>
    (([], 0, some (.wrap ("error getting rides " ++ toString offset ++ "+" ++
      toString limit ++ " for " ++ toString user) e)), r1, tr)
  | ((.ok b, _), r1, tr) =>
    let p := decodeJSON (unmRidesEnv {}) {} b
    ((p.1.Rides, p.1.Count, p.2), r1, tr)

/-- func (r *RWGPS) GetRide (source lines 254-275). -/
def RWGPS.GetRide (o : Oracle) (r : RWGPS) (id : Int) :
    (Option Ride × Option Err) × RWGPS × List Ev :=
  match RWGPS.Get o r ("/trips/" ++ toString id ++ ".json") none with
  | ((.error e, _), r1, tr) =>
    ((none, some (.wrap ("error getting ride id " ++ toString id) e)), r1, tr)
  | ((.ok b, _), r1, tr) =>
    let p := decodeJSON (unmRideEnv {}) {} b
    match p.2 with
    | some de => ((none, some de), r1, tr)
    | none =>
      if p.1.«Type» ≠ "trip" then
        ((none, some (.validation p.1.«Type»)), r1, tr)
      else ((some p.1.Trip, none), r1, tr)

/-- func New (source lines 172-180), with the ini parsing of NewConfig
(an external collaborator per the spec) replaced by the already-loaded
Config value it produces. -/
def New (cfg : Config) : RWGPS :=
  { config := cfg, client := { server := "https://ridewithgps.com" },
    authUser := none }

/-- One public operation of the session, for stating frame properties
over arbitrary call sequences. -/
inductive Op where
  | auth : Op
  | get (method : String) (args : Option Values) : Op
  | getCurrentUser : Op
  | getRides (user offset limit : Int) : Op
  | getRide (id : Int) : Op

/-- The state after one operation. -/
def applyOp (o : Oracle) (r : RWGPS) : Op → RWGPS
  | .auth => (RWGPS.Auth o r).2.1
  | .get m a => (RWGPS.Get o r m a).2.1
  | .getCurrentUser => (RWGPS.GetCurrentUser o r).2.1
  | .getRides u off lim => (RWGPS.GetRides o r u off lim).2.1
  | .getRide id => (RWGPS.GetRide o r id).2.1

/-- The state after a sequence of operations. -/
def runOps (o : Oracle) : List Op → RWGPS → RWGPS
  | [], r => r
  | op :: t, r => runOps o t (applyOp o r op)

/-- The login exchange as GetCurrentUser performs it from an
unauthenticated session: the credentialed transport call followed by the
shared decode tail. -/
def loginTry (o : Oracle) (r : RWGPS) : Option User × Option Err :=
  gcuFinish (Client.Get r.client o "/users/current.json" (credArgs r.config))

/-- Credentials fixture mirroring the testConfig of the source tests. -/
def cfgW : Config :=
  { Email := "test@example.com", Password := "supers3cret",
    KeyName := "test key" }

/-- A client with an empty server base, as the test doubles use. -/
def clientW : Client := { server := "" }

/-- An unauthenticated session over the fixture credentials. -/
def rUnauthW : RWGPS := { config := cfgW, client := clientW }

/-- An authenticated session holding the pre-set token of the source
tests. -/
def rAuthedW : RWGPS :=
  { config := cfgW, client := clientW,
    authUser := some { ID := 1, Name := "t", AuthToken := "beef1337" } }

/-- A 200 response carrying a given document. -/
def respOk (j : Json) : Resp :=
  { statusCode := 200, status := "200 OK", body := some j }

/-- An oracle answering every request with a 200 response carrying j. -/
def okOracleJ (j : Json) : Oracle := fun _ => .ok (respOk j)

/-- An oracle failing every request at the network level. -/
def failOracleW : Oracle := fun _ => .fail

/-- The current-user fixture of the spec (id 1268590, name zigdon,
token ffffff). -/
def goodUserJ : Json :=
  Json.obj [("user", Json.obj [("id", Json.num 1268590),
    ("name", Json.str "zigdon"), ("auth_token", Json.str "ffffff")])]

/-- A response that decodes cleanly but carries an empty token. -/
def emptyTokJ : Json :=
  Json.obj [("user", Json.obj [("id", Json.num 7), ("name", Json.str "z"),
    ("auth_token", Json.str "")])]

/-- A response whose auth_token field has the wrong JSON type: id and
name decode, the token errors. -/
def badTokJ : Json :=
  Json.obj [("user", Json.obj [("id", Json.num 5), ("name", Json.str "bob"),
    ("auth_token", Json.num 9)])]

/-- A trip response with the expected discriminator. -/
def tripJ : Json :=
  Json.obj [("type", Json.str "trip"),
    ("trip", Json.obj [("id", Json.num 94), ("name", Json.str "r")])]

/-- First listing element fixture. -/
def rideJ1 : Json := Json.obj [("id", Json.num 1)]

/-- Second listing element fixture. -/
def rideJ2 : Json := Json.obj [("id", Json.num 2)]

/-- A listing envelope fixture: two results, declared total 42. -/
def ridesJ : Json :=
  Json.obj [("results_count", Json.num 42),
    ("results", Json.arr [rideJ1, rideJ2])]

/-- An oracle that accepts the credentialed login request and fails every
other request at the network level. -/
def c8Oracle : Oracle := fun u =>
  if u = Client.uri clientW "/users/current.json" (credArgs cfgW) then
    .ok (respOk goodUserJ)
  else .fail

/-- The ride-envelope decode of the trip fixture. -/
def tripEnvW : RideEnv := (decodeJSON (unmRideEnv {}) {} (some tripJ)).1

/-- One-step unfolding of the interpreter on getCurrentUser. -/
theorem run_succ_gcu (n : Nat) (o : Oracle) (r : RWGPS) :
    run (n + 1) o r .getCurrentUser =
      if r.isUnauth then
        (.user (loginTry o r).1 (loginTry o r).2, r,
          [.login (credArgs r.config)])
      else
        match run n o r (.get "/users/current.json" none) with
        | (.body res _, r1, tr) =>
          (.user (gcuFinish res).1 (gcuFinish res).2, r1, tr)
        | (_, r1, tr) => (.fuelOut, r1, tr) := rfl

/-- One-step unfolding of the interpreter on auth. -/
theorem run_succ_auth (n : Nat) (o : Oracle) (r : RWGPS) :
    run (n + 1) o r .auth =
      match run n o r .getCurrentUser with
      | (.user u e, r1, tr) =>
        (.authR (authFinish (u, e) r1).1, (authFinish (u, e) r1).2, tr)
      | (_, r1, tr) => (.fuelOut, r1, tr) := rfl

/-- One-step unfolding of the interpreter on get. -/
theorem run_succ_get (n : Nat) (o : Oracle) (r : RWGPS) (m : String)
    (a : Option Values) :
    run (n + 1) o r (.get m a) =
      match (if r.isUnauth then
          match run n o r .auth with
          | (.authR (some e), r1, tr) =>
            (Except.error (Err.wrap "cant auth" e), r1, tr)
          | (.authR none, r1, tr) => (Except.ok (), r1, tr)
          | (_, r1, tr) => (Except.error Err.outOfFuel, r1, tr)
        else ((Except.ok () : Except Err Unit), r, ([] : List Ev))) with
      | (.error e, r1, tr) => (.body (.error e) a, r1, tr)
      | (.ok _, r1, tr) =>
        (.body (Client.Get r1.client o m (mergedArgs r1 a))
          (a.map (fun _ => mergedArgs r1 a)), r1,
          tr ++ [.fetch m (mergedArgs r1 a)]) := rfl

/-- Characterization of the interpreter on get from an authenticated
session: no login, one fetch with the merged parameters, state
untouched. -/
theorem run_get_authed (n : Nat) (o : Oracle) (r : RWGPS) (m : String)
    (a : Option Values) (h : r.isUnauth = false) :
    run (n + 1) o r (.get m a) =
      (.body (Client.Get r.client o m (mergedArgs r a))
        (a.map (fun _ => mergedArgs r a)), r, [.fetch m (mergedArgs r a)]) := by
  simp [run, h]

/-- Characterization of the interpreter on getCurrentUser from an
unauthenticated session: one credentialed login call, state untouched. -/
theorem run_gcu_unauth (n : Nat) (o : Oracle) (r : RWGPS)
    (h : r.isUnauth = true) :
    run (n + 1) o r .getCurrentUser =
      (.user (loginTry o r).1 (loginTry o r).2, r,
        [.login (credArgs r.config)]) := by
  simp [run, h, loginTry]

/-- Characterization of the interpreter on getCurrentUser from an
authenticated session: one authenticated fetch, state untouched. -/
theorem run_gcu_authed (n : Nat) (o : Oracle) (r : RWGPS)
    (h : r.isUnauth = false) :
    run (n + 2) o r .getCurrentUser =
      (.user (gcuFinish (Client.Get r.client o "/users/current.json"
          (mergedArgs r none))).1
        (gcuFinish (Client.Get r.client o "/users/current.json"
          (mergedArgs r none))).2, r,
        [.fetch "/users/current.json" (mergedArgs r none)]) := by
  have e2 : n + 2 = n + 1 + 1 := rfl
  rw [e2, run_succ_gcu, run_get_authed n o r "/users/current.json" none h, h]
  simp

/-- Characterization of the interpreter on auth from an unauthenticated
session. -/
theorem run_auth_unauth (n : Nat) (o : Oracle) (r : RWGPS)
    (h : r.isUnauth = true) :
    run (n + 2) o r .auth =
      (.authR (authFinish (loginTry o r) r).1, (authFinish (loginTry o r) r).2,
        [.login (credArgs r.config)]) := by
  have e2 : n + 2 = n + 1 + 1 := rfl
  rw [e2, run_succ_auth, run_gcu_unauth n o r h]

/-- Characterization of the interpreter on auth from an authenticated
session. -/
theorem run_auth_authed (n : Nat) (o : Oracle) (r : RWGPS)
    (h : r.isUnauth = false) :
    run (n + 3) o r .auth =
      (.authR (authFinish (gcuFinish (Client.Get r.client o
          "/users/current.json" (mergedArgs r none))) r).1,
        (authFinish (gcuFinish (Client.Get r.client o
          "/users/current.json" (mergedArgs r none))) r).2,
        [.fetch "/users/current.json" (mergedArgs r none)]) := by
  have e3 : n + 3 = n + 2 + 1 := rfl
  rw [e3, run_succ_auth, run_gcu_authed n o r h]

/-- Characterization of the interpreter on get from an unauthenticated
session whose implicit login fails: the wrapped error is surfaced, the
state and the caller map are untouched, exactly one login happened. -/
theorem run_get_unauth_fail (n : Nat) (o : Oracle) (r : RWGPS) (m : String)
    (a : Option Values) (e : Err) (h : r.isUnauth = true)
    (he : (loginTry o r).2 = some e) :
    run (n + 3) o r (.get m a) =
      (.body (.error (.wrap "cant auth" (.wrap "cant log in" e))) a, r,
        [.login (credArgs r.config)]) := by
  have e3 : n + 3 = n + 2 + 1 := rfl
  rw [e3, run_succ_get, run_auth_unauth n o r h, h]
  simp [authFinish, he]

/-- Characterization of the interpreter on get from an unauthenticated
session whose implicit login succeeds: the decoded identity is stored,
then one fetch is made with the merged parameters carrying the new
token. -/
theorem run_get_unauth_ok (n : Nat) (o : Oracle) (r : RWGPS) (m : String)
    (a : Option Values) (h : r.isUnauth = true)
    (he : (loginTry o r).2 = none) :
    run (n + 3) o r (.get m a) =
      (.body (Client.Get r.client o m
          (mergedArgs { r with authUser := (loginTry o r).1 } a))
        (a.map (fun _ => mergedArgs { r with authUser := (loginTry o r).1 } a)),
        { r with authUser := (loginTry o r).1 },
        [.login (credArgs r.config),
         .fetch m (mergedArgs { r with authUser := (loginTry o r).1 } a)]) := by
  have e3 : n + 3 = n + 2 + 1 := rfl
  rw [e3, run_succ_get, run_auth_unauth n o r h, h]
  simp [authFinish, he]

/-- RWGPS.Get from an authenticated session: no login, the caller map
receives the three appended parameters, the state is untouched. -/
theorem Get_authed (o : Oracle) (r : RWGPS) (m : String) (a : Option Values)
    (h : r.isUnauth = false) :
    RWGPS.Get o r m a =
      ((Client.Get r.client o m (mergedArgs r a),
        a.map (fun _ => mergedArgs r a)), r, [.fetch m (mergedArgs r a)]) := by
  unfold RWGPS.Get
  have e4 : (4 : Nat) = 3 + 1 := rfl
  rw [e4, run_get_authed 3 o r m a h]

/-- RWGPS.Get from an unauthenticated session whose login fails: wrapped
error, caller map and state untouched. -/
theorem Get_unauth_fail (o : Oracle) (r : RWGPS) (m : String)
    (a : Option Values) (e : Err) (h : r.isUnauth = true)
    (he : (loginTry o r).2 = some e) :
    RWGPS.Get o r m a =
      ((.error (.wrap "cant auth" (.wrap "cant log in" e)), a), r,
        [.login (credArgs r.config)]) := by
  unfold RWGPS.Get
  have e4 : (4 : Nat) = 1 + 3 := rfl
  rw [e4, run_get_unauth_fail 1 o r m a e h he]

/-- RWGPS.Get from an unauthenticated session whose login succeeds: the
decoded identity is stored, then the fetch is made with the merged
parameters. -/
theorem Get_unauth_ok (o : Oracle) (r : RWGPS) (m : String)
    (a : Option Values) (h : r.isUnauth = true)
    (he : (loginTry o r).2 = none) :
    RWGPS.Get o r m a =
      ((Client.Get r.client o m
          (mergedArgs { r with authUser := (loginTry o r).1 } a),
        a.map (fun _ => mergedArgs { r with authUser := (loginTry o r).1 } a)),
        { r with authUser := (loginTry o r).1 },
        [.login (credArgs r.config),
         .fetch m (mergedArgs { r with authUser := (loginTry o r).1 } a)]) := by
  unfold RWGPS.Get
  have e4 : (4 : Nat) = 1 + 3 := rfl
  rw [e4, run_get_unauth_ok 1 o r m a h he]

/-- RWGPS.Auth from an unauthenticated session whose login exchange
fails: the wrapped error is returned and the state is untouched. -/
theorem Auth_unauth_fail (o : Oracle) (r : RWGPS) (e : Err)
    (h : r.isUnauth = true) (he : (loginTry o r).2 = some e) :
    RWGPS.Auth o r =
      (some (.wrap "cant log in" e), r, [.login (credArgs r.config)]) := by
  unfold RWGPS.Auth
  have e4 : (4 : Nat) = 2 + 2 := rfl
  rw [e4, run_auth_unauth 2 o r h]
  simp [authFinish, he]

/-- RWGPS.Auth from an unauthenticated session whose login exchange
succeeds (no transport and no decode error): the decoded identity is
stored, whatever its token. -/
theorem Auth_unauth_ok (o : Oracle) (r : RWGPS) (h : r.isUnauth = true)
    (he : (loginTry o r).2 = none) :
    RWGPS.Auth o r =
      (none, { r with authUser := (loginTry o r).1 },
        [.login (credArgs r.config)]) := by
  unfold RWGPS.Auth
  have e4 : (4 : Nat) = 2 + 2 := rfl
  rw [e4, run_auth_unauth 2 o r h]
  simp [authFinish, he]

/-- RWGPS.Auth from an authenticated session: one authenticated fetch of
the current user, then the store-or-error tail. -/
theorem Auth_authed (o : Oracle) (r : RWGPS) (h : r.isUnauth = false) :
    RWGPS.Auth o r =
      ((authFinish (gcuFinish (Client.Get r.client o "/users/current.json"
          (mergedArgs r none))) r).1,
        (authFinish (gcuFinish (Client.Get r.client o "/users/current.json"
          (mergedArgs r none))) r).2,
        [.fetch "/users/current.json" (mergedArgs r none)]) := by
  unfold RWGPS.Auth
  have e4 : (4 : Nat) = 1 + 3 := rfl
  rw [e4, run_auth_authed 1 o r h]

/-- RWGPS.GetCurrentUser from an unauthenticated session: the
credentialed login exchange. -/
theorem GCU_unauth (o : Oracle) (r : RWGPS) (h : r.isUnauth = true) :
    RWGPS.GetCurrentUser o r =
      (loginTry o r, r, [.login (credArgs r.config)]) := by
  unfold RWGPS.GetCurrentUser
  have e4 : (4 : Nat) = 3 + 1 := rfl
  rw [e4, run_gcu_unauth 3 o r h]

/-- RWGPS.GetCurrentUser from an authenticated session: one authenticated
fetch, decoded by the shared tail, state untouched. -/
theorem GCU_authed (o : Oracle) (r : RWGPS) (h : r.isUnauth = false) :
    RWGPS.GetCurrentUser o r =
      (gcuFinish (Client.Get r.client o "/users/current.json"
          (mergedArgs r none)), r,
        [.fetch "/users/current.json" (mergedArgs r none)]) := by
  unfold RWGPS.GetCurrentUser
  have e4 : (4 : Nat) = 2 + 2 := rfl
  rw [e4, run_gcu_authed 2 o r h]

/-- Values.get after Values.add: the added value is appended to the slice
of its key, every other key is untouched. -/
theorem values_get_add (vs : Values) (k v k1 : String) :
    Values.get (Values.add vs k v) k1 =
      if k1 = k then Values.get vs k1 ++ [v] else Values.get vs k1 := by
  induction vs with
  | nil =>
    by_cases h : k1 = k
    · subst h
      simp [Values.add, Values.get]
    · have h3 : ¬ k = k1 := fun hh => h hh.symm
      simp [Values.add, Values.get, h, h3]
  | cons p t ih =>
    rcases p with ⟨pk, pv⟩
    simp only [Values.add]
    by_cases h : pk = k
    · subst h
      simp only [if_pos rfl]
      by_cases h2 : pk = k1
      · subst h2
        simp [Values.get]
      · have h3 : ¬ k1 = pk := fun hh => h2 hh.symm
        simp [Values.get, h2, h3]
    · simp only [if_neg h]
      by_cases h2 : pk = k1
      · subst h2
        have h3 : ¬ pk = k := h
        simp [Values.get, h3]
      · simp [Values.get, h2, ih]

/-- Reading a non-fixed key through the parameter merge gives exactly the
caller's slice for that key. -/
theorem mergedArgs_get (r : RWGPS) (a : Option Values) (k : String) :
    Values.get (mergedArgs r a) k =
      Values.get (a.getD []) k ++
        (if k = "apikey" then [r.config.KeyName] else []) ++
        (if k = "version" then ["2"] else []) ++
        (if k = "auth_token" then [tokenOf r] else []) := by
  unfold mergedArgs
  rw [values_get_add, values_get_add, values_get_add]
  by_cases h1 : k = "apikey" <;> by_cases h2 : k = "version" <;>
    by_cases h3 : k = "auth_token" <;> simp_all

/-- The three appended entries make the merged map differ from any
caller map. -/
theorem mergedArgs_ne (r : RWGPS) (q : Values) : mergedArgs r (some q) ≠ q := by
  intro hq
  have h1 := congrArg (fun vs => (Values.get vs "auth_token").length) hq
  simp [mergedArgs_get] at h1

/-- Every non-login transport request recorded by RWGPS.Get went to its
method with the merged parameters of some session state sharing the
caller's configuration. -/
theorem get_trace_fetch (o : Oracle) (r : RWGPS) (m : String)
    (a : Option Values) (ev : Ev)
    (hev : ev ∈ (RWGPS.Get o r m a).2.2) (hf : isFetchEv ev = true) :
    ∃ r1 : RWGPS, r1.config = r.config ∧ ev = .fetch m (mergedArgs r1 a) := by
  by_cases h : r.isUnauth
  · rcases he : (loginTry o r).2 with _ | e
    · rw [Get_unauth_ok o r m a h he] at hev
      simp only [List.mem_cons, List.mem_singleton, List.not_mem_nil] at hev
      rcases hev with hev | hev | hev
      · subst hev; simp [isFetchEv] at hf
      · exact ⟨{ r with authUser := (loginTry o r).1 }, rfl, hev⟩
      · exact absurd hev (by simp)
    · rw [Get_unauth_fail o r m a e h he] at hev
      simp only [List.mem_singleton] at hev
      subst hev; simp [isFetchEv] at hf
  · have h2 : r.isUnauth = false := by simpa using h
    rw [Get_authed o r m a h2] at hev
    simp only [List.mem_singleton] at hev
    subst hev
    exact ⟨r, rfl, rfl⟩

/-- RWGPS.Get leaves the configuration and the transport client of the
session untouched. -/
theorem get_state_keeps (o : Oracle) (r : RWGPS) (m : String)
    (a : Option Values) :
    ((RWGPS.Get o r m a).2.1).config = r.config ∧
    ((RWGPS.Get o r m a).2.1).client = r.client := by
  by_cases h : r.isUnauth
  · rcases he : (loginTry o r).2 with _ | e
    · rw [Get_unauth_ok o r m a h he]; exact ⟨rfl, rfl⟩
    · rw [Get_unauth_fail o r m a e h he]; exact ⟨rfl, rfl⟩
  · have h2 : r.isUnauth = false := by simpa using h
    rw [Get_authed o r m a h2]; exact ⟨rfl, rfl⟩

/-- RWGPS.Auth leaves the configuration and the transport client of the
session untouched. -/
theorem auth_state_keeps (o : Oracle) (r : RWGPS) :
    ((RWGPS.Auth o r).2.1).config = r.config ∧
    ((RWGPS.Auth o r).2.1).client = r.client := by
  by_cases h : r.isUnauth
  · rcases he : (loginTry o r).2 with _ | e
    · rw [Auth_unauth_ok o r h he]; exact ⟨rfl, rfl⟩
    · rw [Auth_unauth_fail o r e h he]; exact ⟨rfl, rfl⟩
  · have h2 : r.isUnauth = false := by simpa using h
    rw [Auth_authed o r h2]
    rcases hp : (gcuFinish (Client.Get r.client o "/users/current.json"
        (mergedArgs r none))).2 with _ | e <;>
      simp [authFinish, hp]

/-- RWGPS.GetCurrentUser leaves the configuration and the transport
client of the session untouched. -/
theorem gcu_state_keeps (o : Oracle) (r : RWGPS) :
    ((RWGPS.GetCurrentUser o r).2.1).config = r.config ∧
    ((RWGPS.GetCurrentUser o r).2.1).client = r.client := by
  by_cases h : r.isUnauth
  · rw [GCU_unauth o r h]; exact ⟨rfl, rfl⟩
  · have h2 : r.isUnauth = false := by simpa using h
    rw [GCU_authed o r h2]; exact ⟨rfl, rfl⟩

/-- GetRides ends in the state its inner authenticated GET produced. -/
theorem getrides_state (o : Oracle) (r : RWGPS) (user off lim : Int) :
    (RWGPS.GetRides o r user off lim).2.1 =
      (RWGPS.Get o r ("/users/" ++ toString user ++ "/trips.json")
        (some [("offset", [toString off]), ("limit", [toString lim])])).2.1 := by
  unfold RWGPS.GetRides
  rcases hg : RWGPS.Get o r ("/users/" ++ toString user ++ "/trips.json")
      (some [("offset", [toString off]), ("limit", [toString lim])]) with
    ⟨⟨res, caller⟩, r1, tr⟩
  rcases res <;> rfl

/-- GetRides records exactly the transport calls of its inner
authenticated GET. -/
theorem getrides_trace (o : Oracle) (r : RWGPS) (user off lim : Int) :
    (RWGPS.GetRides o r user off lim).2.2 =
      (RWGPS.Get o r ("/users/" ++ toString user ++ "/trips.json")
        (some [("offset", [toString off]), ("limit", [toString lim])])).2.2 := by
  unfold RWGPS.GetRides
  rcases hg : RWGPS.Get o r ("/users/" ++ toString user ++ "/trips.json")
      (some [("offset", [toString off]), ("limit", [toString lim])]) with
    ⟨⟨res, caller⟩, r1, tr⟩
  rcases res <;> rfl

/-- GetRide ends in the state its inner authenticated GET produced. -/
theorem getride_state (o : Oracle) (r : RWGPS) (id : Int) :
    (RWGPS.GetRide o r id).2.1 =
      (RWGPS.Get o r ("/trips/" ++ toString id ++ ".json") none).2.1 := by
  unfold RWGPS.GetRide
  rcases hg : RWGPS.Get o r ("/trips/" ++ toString id ++ ".json") none with
    ⟨⟨res, caller⟩, r1, tr⟩
  rcases res with e | b
  · rfl
  · rcases hp : (decodeJSON (unmRideEnv {}) {} b).2 with _ | de
    · simp only [hp]
      split <;> rfl
    · simp only [hp]

/-- Every single operation leaves the configuration and the transport
client untouched. -/
theorem applyOp_keeps (o : Oracle) (r : RWGPS) (op : Op) :
    (applyOp o r op).config = r.config ∧
    (applyOp o r op).client = r.client := by
  cases op with
  | auth => exact auth_state_keeps o r
  | get m a => exact get_state_keeps o r m a
  | getCurrentUser => exact gcu_state_keeps o r
  | getRides u off lim =>
    have hs := getrides_state o r u off lim
    have hk := get_state_keeps o r ("/users/" ++ toString u ++ "/trips.json")
      (some [("offset", [toString off]), ("limit", [toString lim])])
    simp only [applyOp]
    rw [hs]
    exact hk
  | getRide id =>
    have hs := getride_state o r id
    have hk := get_state_keeps o r ("/trips/" ++ toString id ++ ".json") none
    simp only [applyOp]
    rw [hs]
    exact hk

/-- C3: authenticatedGet performs the credentialed login exchange exactly
once when the stored identity is absent or carries an empty token
(including a partially populated identity, whose empty token makes
isUnauth true), and performs no login when a non-empty token is stored:
the number of login-tagged transport calls it records is one on an
unauthenticated session and zero on an authenticated one, for every
oracle, method and parameter map. -/
theorem c3_login_iff_unauthenticated (o : Oracle) (r : RWGPS) (m : String)
    (a : Option Values) :
    (RWGPS.Get o r m a).2.2.countP isLoginEv =
      (if r.isUnauth then 1 else 0) := by
  by_cases h : r.isUnauth
  · rcases he : (loginTry o r).2 with _ | e
    · rw [Get_unauth_ok o r m a h he]
      simp [h, isLoginEv, List.countP_cons]
    · rw [Get_unauth_fail o r m a e h he]
      simp [h, isLoginEv, List.countP_cons]
  · have h2 : r.isUnauth = false := by simpa using h
    rw [Get_authed o r m a h2]
    simp [h2, isLoginEv, List.countP_cons]

/-- C5: Client.Get returns an error exactly when the network call fails
or the HTTP status is not 200; whenever a response is present its status
text is embedded in the error, and a 200 response returns the body with
no error. -/
theorem c5_transport_errors (c : Client) (o : Oracle) (base : String)
    (args : Values) :
    (o (Client.uri c base args) = .fail →
      Client.Get c o base args = .error (.transport base none)) ∧
    (∀ resp, o (Client.uri c base args) = .failWithResp resp →
      Client.Get c o base args = .error (.transport base (some resp.status))) ∧
    (∀ resp, o (Client.uri c base args) = .ok resp → resp.statusCode ≠ 200 →
      Client.Get c o base args = .error (.transport base (some resp.status))) ∧
    (∀ resp, o (Client.uri c base args) = .ok resp → resp.statusCode = 200 →
      Client.Get c o base args = .ok resp.body) ∧
    (∀ b, Client.Get c o base args = .ok b →
      ∃ resp, o (Client.uri c base args) = .ok resp ∧
        resp.statusCode = 200 ∧ b = resp.body) := by
  refine ⟨?_, ?_, ?_, ?_, ?_⟩
  · intro h
    simp [Client.Get, h]
  · intro resp h
    simp [Client.Get, h]
  · intro resp h hs
    simp [Client.Get, h, hs]
  · intro resp h hs
    simp [Client.Get, h, hs]
  · intro b hb
    unfold Client.Get at hb
    rcases ho : o (Client.uri c base args) with _ | resp | resp <;> rw [ho] at hb
    · exact absurd hb (by simp)
    · exact absurd hb (by simp)
    · by_cases hs : resp.statusCode = 200
      · refine ⟨resp, rfl, hs, ?_⟩
        simp [hs] at hb
        exact hb.symm
      · simp [hs] at hb

/-- C5 witness: a concrete 200 response is returned as the body with no
error. -/
theorem c5_witness :
    Client.Get clientW (okOracleJ goodUserJ) "/p" [] = .ok (some goodUserJ) :=
  (c5_transport_errors clientW (okOracleJ goodUserJ) "/p" []).2.2.2.1
    (respOk goodUserJ) rfl rfl

/-- C9: no sequence of session operations mutates the credentials loaded
at construction: after any operations the configuration is exactly the
one New received. -/
theorem c9_credentials_immutable (o : Oracle) (ops : List Op) (cfg : Config) :
    (runOps o ops (New cfg)).config = cfg := by
  suffices h : ∀ r : RWGPS, (runOps o ops r).config = r.config by
    exact h (New cfg)
  induction ops with
  | nil => intro r; rfl
  | cons op t ih =>
    intro r
    have hstep := (applyOp_keeps o r op).1
    calc (runOps o (op :: t) r).config
        = (runOps o t (applyOp o r op)).config := rfl
      _ = (applyOp o r op).config := ih (applyOp o r op)
      _ = r.config := hstep

/-- Decoding the listing envelope: the declared total is taken verbatim
and the results array is decoded elementwise in order. -/
theorem unmRidesEnv_envelope (n : Int) (l : List Json) :
    unmRidesEnv {} (Json.obj [("results_count", Json.num n),
      ("results", Json.arr l)]) =
      ({ Count := n, Rides := l.map (fun v => (decRideSlimElem v).1) },
        (l.map decRideSlimElem).foldl (fun acc p => firstErr acc p.2) none) := by
  have e1 : eqFold "results_count" "results_count" = true := by decide
  have e2 : eqFold "results" "results_count" = false := by decide
  have e3 : eqFold "results" "results" = true := by decide
  simp [unmRidesEnv, unmRidesEnvStep, e1, e2, e3, decInt, decList, firstErr,
    Function.comp_def]

/-- C4: when the fetched body decodes into the ride envelope without
error, GetRide returns the decoded Ride with no error exactly when the
discriminator equals "trip"; a different discriminator yields no Ride
and the unexpected-result-type validation error, which is distinct from
every decode error. -/
theorem c4_getride_discriminator (o : Oracle) (r : RWGPS) (id : Int)
    (b : Body) (env : RideEnv)
    (hfetch : (RWGPS.Get o r ("/trips/" ++ toString id ++ ".json")
      none).1.1 = .ok b)
    (hdec : decodeJSON (unmRideEnv {}) {} b = (env, none)) :
    (env.«Type» = "trip" →
      (RWGPS.GetRide o r id).1 = (some env.Trip, none)) ∧
    (env.«Type» ≠ "trip" →
      (RWGPS.GetRide o r id).1 = (none, some (.validation env.«Type»))) ∧
    (∀ d, Err.validation env.«Type» ≠ Err.decode d) := by
  unfold RWGPS.GetRide
  rcases hg : RWGPS.Get o r ("/trips/" ++ toString id ++ ".json") none with
    ⟨⟨res, caller⟩, r1, tr⟩
  rw [hg] at hfetch
  simp only at hfetch
  subst hfetch
  dsimp only
  rw [hdec]
  refine ⟨?_, ?_, ?_⟩
  · intro ht
    simp [ht]
  · intro ht
    simp [ht]
  · intro d hcontra
    exact Err.noConfusion hcontra

/-- C4 witness: the trip fixture fetched from an authenticated session
yields the decoded ride and no error. -/
theorem c4_witness :
    (RWGPS.GetRide (okOracleJ tripJ) rAuthedW 94).1 =
      (some tripEnvW.Trip, none) :=
  (c4_getride_discriminator (okOracleJ tripJ) rAuthedW 94 (some tripJ)
    tripEnvW rfl rfl).1 rfl

/-- C6: GetRides passes offset and limit through verbatim (also negative
or out-of-range values) as query parameters of its single fetch, and a
listing envelope whose elements decode cleanly is returned with the
server-declared count and the summaries decoded elementwise in server
order. -/
theorem c6_getrides_verbatim_order (o : Oracle) (r : RWGPS)
    (user offset limit : Int) :
    (∀ ev, ev ∈ (RWGPS.GetRides o r user offset limit).2.2 →
      isFetchEv ev = true →
      Values.get (evArgs ev) "offset" = [toString offset] ∧
      Values.get (evArgs ev) "limit" = [toString limit]) ∧
    (∀ b n l,
      (RWGPS.Get o r ("/users/" ++ toString user ++ "/trips.json")
        (some [("offset", [toString offset]),
          ("limit", [toString limit])])).1.1 = .ok b →
      b = some (Json.obj [("results_count", Json.num n),
        ("results", Json.arr l)]) →
      (l.map decRideSlimElem).foldl (fun acc p => firstErr acc p.2) none
        = none →
      (RWGPS.GetRides o r user offset limit).1 =
        (l.map (fun v => (decRideSlimElem v).1), n, none)) := by
  constructor
  · intro ev hev hf
    rw [getrides_trace] at hev
    obtain ⟨r1, hcfg, hev1⟩ := get_trace_fetch o r _ _ ev hev hf
    subst hev1
    constructor
    · simp only [evArgs]
      rw [mergedArgs_get]
      simp [Values.get]
    · simp only [evArgs]
      rw [mergedArgs_get]
      simp [Values.get]
  · intro b n l hfetch hbody hclean
    subst hbody
    unfold RWGPS.GetRides
    rcases hg : RWGPS.Get o r ("/users/" ++ toString user ++ "/trips.json")
        (some [("offset", [toString offset]), ("limit", [toString limit])]) with
      ⟨⟨res, caller⟩, r1, tr⟩
    rw [hg] at hfetch
    simp only at hfetch
    subst hfetch
    simp only [decodeJSON, unmRidesEnv_envelope n l, hclean]
    simp

/-- C6 witness: the listing fixture returns count 42 and its two
summaries in order. -/
theorem c6_witness :
    (RWGPS.GetRides (okOracleJ ridesJ) rAuthedW 9 0 20).1 =
      ([rideJ1, rideJ2].map (fun v => (decRideSlimElem v).1), 42, none) :=
  (c6_getrides_verbatim_order (okOracleJ ridesJ) rAuthedW 9 0 20).2
    (some ridesJ) 42 [rideJ1, rideJ2] rfl rfl rfl

/-- C7: for every caller-supplied parameter map, every non-login request
authenticatedGet hands to the transport carries, for every key, the
caller's values first, with the fixed apikey, version and auth_token
values appended after them: no caller pair is dropped. -/
theorem c7_merge_preserves_caller (o : Oracle) (r : RWGPS) (m : String)
    (q : Values) (ev : Ev)
    (hev : ev ∈ (RWGPS.Get o r m (some q)).2.2) (hf : isFetchEv ev = true) :
    ∃ tok, ∀ k, Values.get (evArgs ev) k =
      Values.get q k ++
        (if k = "apikey" then [r.config.KeyName] else []) ++
        (if k = "version" then ["2"] else []) ++
        (if k = "auth_token" then [tok] else []) := by
  obtain ⟨r1, hcfg, hev1⟩ := get_trace_fetch o r m (some q) ev hev hf
  subst hev1
  refine ⟨tokenOf r1, fun k => ?_⟩
  simp only [evArgs]
  rw [mergedArgs_get]
  rw [hcfg]
  rfl

/-- C7 witness: a caller map already containing an apikey entry keeps its
own value first, with the fixed key appended after it. -/
theorem c7_witness :
    Values.get (evArgs (Ev.fetch "/x"
      (mergedArgs rAuthedW (some [("apikey", ["mine"])])))) "apikey" =
      ["mine", "test key"] := by
  obtain ⟨tok, hh⟩ := c7_merge_preserves_caller (okOracleJ goodUserJ)
    rAuthedW "/x" [("apikey", ["mine"])]
    (Ev.fetch "/x" (mergedArgs rAuthedW (some [("apikey", ["mine"])])))
    (by decide) rfl
  rw [hh "apikey"]
  rfl

/-- C1 counterexample: a login response that decodes successfully but
carries an empty auth token makes Auth report success (no error) and
replace the stored identity with the empty-token identity, contrary to
the claim that login fails with AuthError and leaves the identity
unchanged. -/
theorem c1_counterexample :
    (RWGPS.Auth (okOracleJ emptyTokJ) rUnauthW).1 = none ∧
    (RWGPS.Auth (okOracleJ emptyTokJ) rUnauthW).2.1.authUser =
      some { ID := 7, Name := "z", AuthToken := "" } := ⟨rfl, rfl⟩

/-- C1 amended: when the login response decodes successfully with an
empty token, Auth reports success and stores the empty-token identity
(the session still satisfies the unauthenticated predicate, so a later
authenticated operation re-triggers login); the login error arises
exactly from a transport or decode failure, and then the stored
identity is unchanged. -/
theorem c1_login_empty_token (o : Oracle) (r : RWGPS) (u : User)
    (h : r.isUnauth = true) :
    (loginTry o r = (some u, none) → u.AuthToken = "" →
      RWGPS.Auth o r = (none, { r with authUser := some u },
        [.login (credArgs r.config)]) ∧
      RWGPS.isUnauth { r with authUser := some u } = true) ∧
    (∀ e, (loginTry o r).2 = some e →
      RWGPS.Auth o r = (some (.wrap "cant log in" e), r,
        [.login (credArgs r.config)])) := by
  constructor
  · intro hl htok
    have he : (loginTry o r).2 = none := by rw [hl]
    constructor
    · rw [Auth_unauth_ok o r h he, hl]
    · simp [RWGPS.isUnauth, htok]
  · intro e he
    exact Auth_unauth_fail o r e h he

/-- C1 witness: the empty-token fixture applied to the amended
theorem. -/
theorem c1_witness :
    RWGPS.Auth (okOracleJ emptyTokJ) rUnauthW =
      (none, { rUnauthW with
        authUser := some { ID := 7, Name := "z", AuthToken := "" } },
        [.login (credArgs rUnauthW.config)]) ∧
    RWGPS.isUnauth { rUnauthW with
      authUser := some { ID := 7, Name := "z", AuthToken := "" } } = true :=
  (c1_login_empty_token (okOracleJ emptyTokJ) rUnauthW
    { ID := 7, Name := "z", AuthToken := "" } rfl).1 rfl rfl

/-- C2 counterexample: a well-formed body whose auth_token field has the
wrong JSON type makes getCurrentUser return a partially populated user
(id and name decoded, different from the zero value) together with the
decode error, contrary to the claim that a decode failure returns only
an error. -/
theorem c2_counterexample :
    (RWGPS.GetCurrentUser (okOracleJ badTokJ) rAuthedW).1 =
      (some { ID := 5, Name := "bob" }, some (Err.decode (some badTokJ))) ∧
    ({ ID := 5, Name := "bob" } : User) ≠ zeroUser := ⟨rfl, by decide⟩

/-- C2 amended: getRide indeed never returns a ride together with an
error, but getCurrentUser and getRides return the decode error together
with whatever the decoder populated: the decoded (possibly partial)
envelope contents accompany the error instead of being dropped. -/
theorem c2_partial_decode (o : Oracle) (r : RWGPS) (id : Int) :
    ((RWGPS.GetRide o r id).1.1 = none ∨ (RWGPS.GetRide o r id).1.2 = none) ∧
    (∀ b, r.isUnauth = false →
      (RWGPS.Get o r "/users/current.json" none).1.1 = .ok b →
      (RWGPS.GetCurrentUser o r).1 =
        (some (decodeJSON (unmUserEnv {}) {} b).1.User,
          (decodeJSON (unmUserEnv {}) {} b).2)) ∧
    (∀ user offset limit b,
      (RWGPS.Get o r ("/users/" ++ toString user ++ "/trips.json")
        (some [("offset", [toString offset]),
          ("limit", [toString limit])])).1.1 = .ok b →
      (RWGPS.GetRides o r user offset limit).1 =
        ((decodeJSON (unmRidesEnv {}) {} b).1.Rides,
          (decodeJSON (unmRidesEnv {}) {} b).1.Count,
          (decodeJSON (unmRidesEnv {}) {} b).2)) := by
  refine ⟨?_, ?_, ?_⟩
  · unfold RWGPS.GetRide
    rcases hg : RWGPS.Get o r ("/trips/" ++ toString id ++ ".json") none with
      ⟨⟨res, caller⟩, r1, tr⟩
    rcases res with e | b
    · left; rfl
    · dsimp only
      rcases hp : (decodeJSON (unmRideEnv {}) {} b).2 with _ | de
      · dsimp only
        split
        · left; rfl
        · right; rfl
      · left; rfl
  · intro b hauth hget
    have hc := Get_authed o r "/users/current.json" none hauth
    rw [hc] at hget
    simp only at hget
    rw [GCU_authed o r hauth]
    simp only [hget, gcuFinish]
  · intro user offset limit b hget
    unfold RWGPS.GetRides
    rcases hg : RWGPS.Get o r ("/users/" ++ toString user ++ "/trips.json")
        (some [("offset", [toString offset]), ("limit", [toString limit])]) with
      ⟨⟨res, caller⟩, r1, tr⟩
    rw [hg] at hget
    simp only at hget
    subst hget
    rfl

/-- C2 witness: the wrong-typed token fixture applied to the amended
theorem from an authenticated session. -/
theorem c2_witness :
    (RWGPS.GetCurrentUser (okOracleJ badTokJ) rAuthedW).1 =
      (some (decodeJSON (unmUserEnv {}) {} (some badTokJ)).1.User,
        (decodeJSON (unmUserEnv {}) {} (some badTokJ)).2) :=
  (c2_partial_decode (okOracleJ badTokJ) rAuthedW 0).2.1 (some badTokJ)
    rfl rfl

/-- C8 counterexample: from an unauthenticated session whose implicit
login succeeds but whose subsequent fetch fails at the network level,
authenticatedGet surfaces an error while the stored identity has
changed from absent to the logged-in user, contrary to the claim that a
failed authenticated GET leaves the session state exactly as before. -/
theorem c8_counterexample :
    (RWGPS.Get c8Oracle rUnauthW "/x" none).1.1 =
      .error (.transport "/x" none) ∧
    rUnauthW.authUser = none ∧
    (RWGPS.Get c8Oracle rUnauthW "/x" none).2.1.authUser =
      some { ID := 1268590, Name := "zigdon", AuthToken := "ffffff" } :=
  ⟨rfl, rfl, rfl⟩

/-- C8 amended: a failed login never changes the stored identity; from an
Authenticated session no request, failed or not, changes the session
state at all (in particular there is no automatic
Authenticated-to-Unauthenticated transition); nothing is retried (at
most one login and at most one fetch per call); and the only state
change a failed authenticatedGet can make is keeping the identity its
successful implicit login already stored. -/
theorem c8_no_auto_transition (o : Oracle) (r : RWGPS) (m : String)
    (a : Option Values) :
    ((RWGPS.Auth o r).1.isSome = true → (RWGPS.Auth o r).2.1 = r) ∧
    (r.isUnauth = false → (RWGPS.Get o r m a).2.1 = r) ∧
    ((RWGPS.Get o r m a).2.2.countP isLoginEv ≤ 1 ∧
      (RWGPS.Get o r m a).2.2.countP isFetchEv ≤ 1) ∧
    ((RWGPS.Get o r m a).2.1 = r ∨
      (r.isUnauth = true ∧ (loginTry o r).2 = none ∧
        (RWGPS.Get o r m a).2.1 = { r with authUser := (loginTry o r).1 })) := by
  refine ⟨?_, ?_, ?_, ?_⟩
  · intro hsome
    by_cases h : r.isUnauth
    · rcases he : (loginTry o r).2 with _ | e
      · rw [Auth_unauth_ok o r h he] at hsome
        simp at hsome
      · rw [Auth_unauth_fail o r e h he]
    · have h2 : r.isUnauth = false := by simpa using h
      rw [Auth_authed o r h2] at hsome ⊢
      rcases hp : (gcuFinish (Client.Get r.client o "/users/current.json"
          (mergedArgs r none))).2 with _ | e
      · simp [authFinish, hp] at hsome
      · simp [authFinish, hp]
  · intro h2
    rw [Get_authed o r m a h2]
  · by_cases h : r.isUnauth
    · rcases he : (loginTry o r).2 with _ | e
      · rw [Get_unauth_ok o r m a h he]
        constructor <;> simp [List.countP_cons, isLoginEv, isFetchEv]
      · rw [Get_unauth_fail o r m a e h he]
        constructor <;> simp [List.countP_cons, isLoginEv, isFetchEv]
    · have h2 : r.isUnauth = false := by simpa using h
      rw [Get_authed o r m a h2]
      constructor <;> simp [List.countP_cons, isLoginEv, isFetchEv]
  · by_cases h : r.isUnauth
    · rcases he : (loginTry o r).2 with _ | e
      · right
        refine ⟨h, rfl, ?_⟩
        rw [Get_unauth_ok o r m a h he]
      · left
        rw [Get_unauth_fail o r m a e h he]
    · have h2 : r.isUnauth = false := by simpa using h
      left
      rw [Get_authed o r m a h2]

/-- C8 witness: a failed login against a network-dead oracle leaves the
session exactly as it was. -/
theorem c8_witness :
    (RWGPS.Auth failOracleW rUnauthW).2.1 = rUnauthW :=
  (c8_no_auto_transition failOracleW rUnauthW "/x" none).1 rfl

/-- C10 counterexample: a non-nil caller map is not always mutated: when
the implicit login fails, authenticatedGet returns with the caller map
exactly as supplied and no apikey entry appended. -/
theorem c10_counterexample :
    (RWGPS.Get failOracleW rUnauthW "/x" (some [("q", ["1"])])).1.2 =
      some [("q", ["1"])] ∧
    Values.get [("q", ["1"])] "apikey" = [] := ⟨rfl, rfl⟩

/-- C10 amended: whenever the request step is reached (the session is
already authenticated, or the implicit login succeeds) the caller's
non-nil map is mutated in place, gaining the three appended entries and
thus differing from the supplied map; when the implicit login fails the
caller's map is left untouched; and a nil argument makes Get work on a
fresh map the caller never observes. -/
theorem c10_caller_map (o : Oracle) (r : RWGPS) (m : String) (q : Values) :
    (r.isUnauth = false →
      (RWGPS.Get o r m (some q)).1.2 = some (mergedArgs r (some q)) ∧
      mergedArgs r (some q) ≠ q) ∧
    (r.isUnauth = true → (loginTry o r).2 = none →
      (RWGPS.Get o r m (some q)).1.2 =
        some (mergedArgs { r with authUser := (loginTry o r).1 } (some q)) ∧
      mergedArgs { r with authUser := (loginTry o r).1 } (some q) ≠ q) ∧
    (∀ e, r.isUnauth = true → (loginTry o r).2 = some e →
      (RWGPS.Get o r m (some q)).1.2 = some q) ∧
    (RWGPS.Get o r m none).1.2 = none := by
  refine ⟨?_, ?_, ?_, ?_⟩
  · intro h2
    rw [Get_authed o r m (some q) h2]
    exact ⟨rfl, mergedArgs_ne r q⟩
  · intro h he
    rw [Get_unauth_ok o r m (some q) h he]
    exact ⟨rfl, mergedArgs_ne _ q⟩
  · intro e h he
    rw [Get_unauth_fail o r m (some q) e h he]
  · by_cases h : r.isUnauth
    · rcases he : (loginTry o r).2 with _ | e
      · rw [Get_unauth_ok o r m none h he]
        rfl
      · rw [Get_unauth_fail o r m none e h he]
    · have h2 : r.isUnauth = false := by simpa using h
      rw [Get_authed o r m none h2]
      rfl

/-- C10 witness: an authenticated session hands back the caller map with
the three entries appended. -/
theorem c10_witness :
    (RWGPS.Get (okOracleJ goodUserJ) rAuthedW "/x"
      (some [("q", ["1"])])).1.2 =
      some (mergedArgs rAuthedW (some [("q", ["1"])])) ∧
    mergedArgs rAuthedW (some [("q", ["1"])]) ≠ [("q", ["1"])] :=
  (c10_caller_map (okOracleJ goodUserJ) rAuthedW "/x" [("q", ["1"])]).1 rfl
